import Mathlib

/-!
Verification development for the sockudo realtime broker.

The definitions below are a shallow embedding of the Rust sources:
`src/connection/state.rs`, `src/rate_limiter/mod.rs` and `src/main.rs`.
Random number generation, the system clock and the environment are made
explicit parameters; machine integers are modelled by `Nat` (no arithmetic
in the embedded code can overflow the original `u64`/`u16` ranges in a way
that matters for the claims).
-/

namespace Sockudo

/-! ### JSON values (model of `serde_json::Value`) -/

/-- Model of `serde_json::Value`: the JSON value tree.  Objects are kept as
association lists in field order, arrays as lists; numbers are modelled by
`Int` (the embedded structs only serialize integers). -/
inductive Json where
  | null : Json
  | bool (b : Bool) : Json
  | num (n : Int) : Json
  | str (s : String) : Json
  | arr (elems : List Json) : Json
  | obj (fields : List (String × Json)) : Json

/-! ### SocketId (src/connection/state.rs lines 9-50) -/

/-- Model of `pub struct SocketId(pub String)`. -/
structure SocketId where
  val : String
deriving DecidableEq

/-- The inclusive upper bound `max` used by `SocketId::generate_socket_id`:
`let max: u64 = 10000000000;`. -/
def socketIdMax : Nat := 10000000000

/-- A value the rng call `rng.gen_range(min..=max)` can return: any `u64`
between `min = 0` and `max = 10000000000`, both inclusive. -/
def socketIdDrawValid (n : Nat) : Prop := n ≤ socketIdMax

instance (n : Nat) : Decidable (socketIdDrawValid n) := by
  unfold socketIdDrawValid; infer_instance

/-- Model of `SocketId::generate_socket_id`, with the two draws of the rng
made explicit arguments: `format!("{}.{}", random_number(min, max),
random_number(min, max))`.  `Nat.repr` is the decimal numeral of a `Nat`,
matching Rust's `{}` formatting of a `u64`. -/
def generate_socket_id (a b : Nat) : String :=
  Nat.repr a ++ "." ++ Nat.repr b

/-- Model of `SocketId::new`. -/
def SocketId.new (a b : Nat) : SocketId :=
  ⟨generate_socket_id a b⟩

/-! ### App and presence records

`AppConfig` (src/app/config.rs) and `PresenceMemberInfo` (src/channel.rs)
are referenced by `ConnectionState` but their defining files are not among
the provided sources; they are modelled from the spec. -/

/-- Modelled from the spec: a webhook entry of `App.webhooks[]` (its defining
source file is not provided).  Spec §4.6: a webhook has a target URL, is
filtered by `event_types` and an optional channel-name `filter`. -/
structure Webhook where
  url : String
  event_types : List String
  filter : Option String

/-- Modelled from the spec: §3 "**App** — {id, key, secret, enabled,
max_connections, max_client_events_per_second, max_channels_per_connection,
enable_client_messages, max_presence_members_per_channel,
max_presence_member_size_kb, webhooks[], max_backend_events_per_second,
max_read_requests_per_second}" (src/app/config.rs is not provided). -/
structure AppConfig where
  id : String
  key : String
  secret : String
  enabled : Bool
  max_connections : Nat
  max_client_events_per_second : Nat
  max_channels_per_connection : Nat
  enable_client_messages : Bool
  max_presence_members_per_channel : Nat
  max_presence_member_size_kb : Nat
  webhooks : List Webhook
  max_backend_events_per_second : Nat
  max_read_requests_per_second : Nat

/-- Modelled from the spec: §3 "**PresenceMemberInfo** — {user_id: string,
user_info: opaque JSON}" (src/channel.rs is not provided). -/
structure PresenceMemberInfo where
  user_id : String
  user_info : Json

/-! ### ConnectionState (src/connection/state.rs lines 51-101)

`HashSet<String>` is modelled by `Finset String` (a `HashSet` compares and
deduplicates as a set); `HashMap<String, PresenceMemberInfo>` by an
association list. -/

/-- Model of `pub struct ConnectionState`. -/
structure ConnectionState where
  socket_id : SocketId
  app : Option AppConfig
  subscribed_channels : Finset String
  user_id : Option String
  last_ping : String
  presence : Option (List (String × PresenceMemberInfo))
  user : Option Json

/-- Model of `ConnectionState::new`, with the rng draws explicit. -/
def ConnectionState.new (a b : Nat) : ConnectionState where
  socket_id := SocketId.new a b
  app := none
  subscribed_channels := ∅
  user_id := none
  last_ping := ""
  presence := none
  user := none

/-- Model of `ConnectionState::is_presence`. -/
def ConnectionState.is_presence (s : ConnectionState) : Bool :=
  s.presence.isSome

/-- Model of `ConnectionState::is_subscribed`. -/
def ConnectionState.is_subscribed (s : ConnectionState) (channel : String) : Bool :=
  channel ∈ s.subscribed_channels

/-- Model of `ConnectionState::add_subscription`:
`self.subscribed_channels.insert(channel)`. -/
def ConnectionState.add_subscription (s : ConnectionState) (channel : String) :
    ConnectionState :=
  { s with subscribed_channels := insert channel s.subscribed_channels }

/-- Model of `ConnectionState::remove_subscription`:
`self.subscribed_channels.remove(channel)`. -/
def ConnectionState.remove_subscription (s : ConnectionState) (channel : String) :
    ConnectionState :=
  { s with subscribed_channels := s.subscribed_channels.erase channel }

/-- Model of `ConnectionState::update_ping`, with the clock reading
`chrono::Utc::now().to_rfc3339()` made an explicit argument. -/
def ConnectionState.update_ping (s : ConnectionState) (now : String) :
    ConnectionState :=
  { s with last_ping := now }

/-- Model of `ConnectionState::get_app_key`. -/
def ConnectionState.get_app_key (s : ConnectionState) : String :=
  match s.app with
  | some app => app.key
  | none => ""

/-! ### serde JSON serialization

`SocketId` and `ConnectionState` derive `Serialize`/`Deserialize`; the
functions below model serde_json's behaviour on the derived instances:
a struct is an object keyed by field names, a newtype struct is its inner
value, `Option` is `null` / the inner value, `HashSet` an array, `HashMap`
an object, and `serde_json::Value` is itself. -/

/-- Field lookup in a JSON object, serde-style (first match by name). -/
def getField (fields : List (String × Json)) (name : String) : Option Json :=
  (fields.find? (fun p => p.1 == name)).map (fun p => p.2)

/-- Serialize a Rust `String`. -/
def serStr (s : String) : Json := .str s

/-- Deserialize a Rust `String`. -/
def deStr : Json → Option String
  | .str s => some s
  | _ => none

/-- Serialize a Rust `bool`. -/
def serBool (b : Bool) : Json := .bool b

/-- Deserialize a Rust `bool`. -/
def deBool : Json → Option Bool
  | .bool b => some b
  | _ => none

/-- Serialize an unsigned Rust integer. -/
def serNat (n : Nat) : Json := .num n

/-- Deserialize an unsigned Rust integer (negative numbers are rejected). -/
def deNat : Json → Option Nat
  | .num n => if 0 ≤ n then some n.toNat else none
  | _ => none

/-- Serialize `Option<T>`: `None` is `null`, `Some x` is `x`'s serialization. -/
def serOpt {α : Type} (f : α → Json) : Option α → Json
  | none => .null
  | some x => f x

/-- Deserialize `Option<T>`: serde maps `null` to `None` before ever
consulting `T`'s deserializer, and delegates every other value to `T`. -/
def deOpt {α : Type} (f : Json → Option α) : Json → Option (Option α)
  | .null => some none
  | j => (f j).map some

/-- Serialize `Vec<T>` (or any sequence). -/
def serList {α : Type} (f : α → Json) (xs : List α) : Json := .arr (xs.map f)

/-- Deserialize `Vec<T>`. -/
def deList {α : Type} (f : Json → Option α) : Json → Option (List α)
  | .arr xs => xs.mapM f
  | _ => none

/-- Serialize `serde_json::Value`: the identity. -/
def serValue (j : Json) : Json := j

/-- Deserialize `serde_json::Value`: always succeeds with the value itself. -/
def deValue (j : Json) : Option Json := some j

/-- Serialize `SocketId` (a newtype struct: transparent). -/
def serSocketId (sid : SocketId) : Json := .str sid.val

/-- Deserialize `SocketId`. -/
def deSocketId (j : Json) : Option SocketId := (deStr j).map SocketId.mk

/-- Serialize a `Webhook`. -/
def serWebhook (w : Webhook) : Json :=
  .obj [("url", serStr w.url),
        ("event_types", serList serStr w.event_types),
        ("filter", serOpt serStr w.filter)]

/-- Deserialize a `Webhook`. -/
def deWebhook : Json → Option Webhook
  | .obj fs => do
      let url ← getField fs "url" >>= deStr
      let ets ← getField fs "event_types" >>= deList deStr
      let fil ← getField fs "filter" >>= deOpt deStr
      some ⟨url, ets, fil⟩
  | _ => none

/-- Serialize an `AppConfig`. -/
def serAppConfig (a : AppConfig) : Json :=
  .obj [("id", serStr a.id),
        ("key", serStr a.key),
        ("secret", serStr a.secret),
        ("enabled", serBool a.enabled),
        ("max_connections", serNat a.max_connections),
        ("max_client_events_per_second", serNat a.max_client_events_per_second),
        ("max_channels_per_connection", serNat a.max_channels_per_connection),
        ("enable_client_messages", serBool a.enable_client_messages),
        ("max_presence_members_per_channel", serNat a.max_presence_members_per_channel),
        ("max_presence_member_size_kb", serNat a.max_presence_member_size_kb),
        ("webhooks", serList serWebhook a.webhooks),
        ("max_backend_events_per_second", serNat a.max_backend_events_per_second),
        ("max_read_requests_per_second", serNat a.max_read_requests_per_second)]

/-- Deserialize an `AppConfig`. -/
def deAppConfig : Json → Option AppConfig
  | .obj fs => do
      let id ← getField fs "id" >>= deStr
      let key ← getField fs "key" >>= deStr
      let secret ← getField fs "secret" >>= deStr
      let enabled ← getField fs "enabled" >>= deBool
      let mc ← getField fs "max_connections" >>= deNat
      let mce ← getField fs "max_client_events_per_second" >>= deNat
      let mcc ← getField fs "max_channels_per_connection" >>= deNat
      let ecm ← getField fs "enable_client_messages" >>= deBool
      let mpm ← getField fs "max_presence_members_per_channel" >>= deNat
      let mps ← getField fs "max_presence_member_size_kb" >>= deNat
      let whs ← getField fs "webhooks" >>= deList deWebhook
      let mbe ← getField fs "max_backend_events_per_second" >>= deNat
      let mrr ← getField fs "max_read_requests_per_second" >>= deNat
      some ⟨id, key, secret, enabled, mc, mce, mcc, ecm, mpm, mps, whs, mbe, mrr⟩
  | _ => none

/-- Serialize a `PresenceMemberInfo` (`user_info` is an opaque `Value`). -/
def serPresenceMemberInfo (m : PresenceMemberInfo) : Json :=
  .obj [("user_id", serStr m.user_id), ("user_info", serValue m.user_info)]

/-- Deserialize a `PresenceMemberInfo`. -/
def dePresenceMemberInfo : Json → Option PresenceMemberInfo
  | .obj fs => do
      let uid ← getField fs "user_id" >>= deStr
      let info ← getField fs "user_info"
      some ⟨uid, info⟩
  | _ => none

/-- Serialize the presence `HashMap<String, PresenceMemberInfo>` as a JSON
object. -/
def serPresenceMap (m : List (String × PresenceMemberInfo)) : Json :=
  .obj (m.map (fun p => (p.1, serPresenceMemberInfo p.2)))

/-- Deserialize the presence map. -/
def dePresenceMap : Json → Option (List (String × PresenceMemberInfo))
  | .obj fs => fs.mapM (fun p => (dePresenceMemberInfo p.2).map (fun v => (p.1, v)))
  | _ => none

/-- Serialize the `HashSet<String>` of subscribed channels as a JSON array
(a `HashSet` iterates in no specified order; the model picks the sorted
order). -/
def serChannels (s : Finset String) : Json :=
  .arr ((s.sort (· ≤ ·)).map Json.str)

/-- Deserialize the subscribed-channel set (collecting into a `HashSet`
deduplicates). -/
def deChannels : Json → Option (Finset String)
  | .arr xs => (xs.mapM deStr).map List.toFinset
  | _ => none

/-- Serialize a `ConnectionState`. -/
def serConnectionState (s : ConnectionState) : Json :=
  .obj [("socket_id", serSocketId s.socket_id),
        ("app", serOpt serAppConfig s.app),
        ("subscribed_channels", serChannels s.subscribed_channels),
        ("user_id", serOpt serStr s.user_id),
        ("last_ping", serStr s.last_ping),
        ("presence", serOpt serPresenceMap s.presence),
        ("user", serOpt serValue s.user)]

/-- Deserialize a `ConnectionState`. -/
def deConnectionState : Json → Option ConnectionState
  | .obj fs => do
      let sid ← getField fs "socket_id" >>= deSocketId
      let app ← getField fs "app" >>= deOpt deAppConfig
      let chans ← getField fs "subscribed_channels" >>= deChannels
      let uid ← getField fs "user_id" >>= deOpt deStr
      let ping ← getField fs "last_ping" >>= deStr
      let pres ← getField fs "presence" >>= deOpt dePresenceMap
      let user ← getField fs "user" >>= deOpt deValue
      some ⟨sid, app, chans, uid, ping, pres, user⟩
  | _ => none

/-! ### Configuration resolution (src/main.rs `main`, lines 931-1061)

Drivers are represented by the lowercase name of the enum variant.  The
driver enums and their `FromStr` instances live in src/options.rs, which is
not among the provided sources; the accepted names are modelled from the
spec's configuration table (§6). -/

/-- Modelled from the spec: `adapter.driver ∈ {local, redis, redis-cluster,
nats}` (src/options.rs is not provided). -/
def adapterDrivers : List String := ["local", "redis", "redis-cluster", "nats"]

/-- Modelled from the spec: `app_manager.driver ∈ {memory, mysql, pgsql,
dynamodb}` (src/options.rs is not provided). -/
def appManagerDrivers : List String := ["memory", "mysql", "pgsql", "dynamodb"]

/-- Modelled from the spec: `cache.driver ∈ {memory, redis, redis-cluster,
none}` (src/options.rs is not provided). -/
def cacheDrivers : List String := ["memory", "redis", "redis-cluster", "none"]

/-- Modelled from the spec: `queue.driver ∈ {memory, redis, redis-cluster,
sqs, none}` (src/options.rs is not provided). -/
def queueDrivers : List String := ["memory", "redis", "redis-cluster", "sqs", "none"]

/-- Modelled from the spec: the metrics driver (the spec's configuration
table only configures a `prometheus` exporter; src/options.rs is not
provided). -/
def metricsDrivers : List String := ["prometheus"]

/-- Rate-limiter backend drivers recognized by src/rate_limiter/mod.rs. -/
def rateLimiterDrivers : List String := ["memory", "redis"]

/-- Model of `parse_driver_enum` (src/main.rs lines 910-929): lowercase the
string, parse it against the accepted names `valid`, and fall back to the
default on failure. -/
def parse_driver_enum (valid : List String) (driver_str : String)
    (default_driver : String) : String :=
  if valid.contains driver_str.toLower then driver_str.toLower else default_driver

/-- The fields of `ServerOptions` (src/options.rs, modelled here only as far
as the claims need) that `main` reads or writes during configuration
resolution. -/
structure ServerOptions where
  host : String
  port : Nat
  debug : Bool
  adapter_driver : String
  cache_driver : String
  queue_driver : String
  metrics_driver : String
  app_manager_driver : String
  rate_limiter_driver : String
  rate_limiter_redis_url_override : Option String
deriving DecidableEq

/-- The environment variables `main` consults while resolving the
configuration (restricted to the ones the claims mention); `none` means the
variable is unset. -/
structure EnvVars where
  debug : Option String
  host : Option String
  port : Option String
  adapter_driver : Option String
  cache_driver : Option String
  queue_driver : Option String
  metrics_driver : Option String
  app_manager_driver : Option String
  rate_limiter_driver : Option String
  redis_url : Option String
deriving DecidableEq

/-- Model of src/main.rs lines 934-936: `DEBUG` is truthy when it equals
`"1"` or lowercases to `"true"`. -/
def env_debug_enabled (env : EnvVars) : Bool :=
  match env.debug with
  | some v => v == "1" || v.toLower == "true"
  | none => false

/-- Model of src/main.rs lines 943-967: apply the environment variables to
the default configuration, before the file is loaded.  `PORT` keeps the
previous value when it does not parse. -/
def apply_env (env : EnvVars) (c : ServerOptions) : ServerOptions :=
  let c := match env.host with
    | some h => { c with host := h }
    | none => c
  let c := match env.port with
    | some p =>
        match p.toNat? with
        | some n => { c with port := n }
        | none => c
    | none => c
  let c := match env.adapter_driver with
    | some s => { c with adapter_driver := parse_driver_enum adapterDrivers s c.adapter_driver }
    | none => c
  let c := match env.cache_driver with
    | some s => { c with cache_driver := parse_driver_enum cacheDrivers s c.cache_driver }
    | none => c
  let c := match env.queue_driver with
    | some s => { c with queue_driver := parse_driver_enum queueDrivers s c.queue_driver }
    | none => c
  let c := match env.metrics_driver with
    | some s => { c with metrics_driver := parse_driver_enum metricsDrivers s c.metrics_driver }
    | none => c
  let c := match env.app_manager_driver with
    | some s => { c with app_manager_driver := parse_driver_enum appManagerDrivers s c.app_manager_driver }
    | none => c
  let c := match env.rate_limiter_driver with
    | some s => { c with rate_limiter_driver := parse_driver_enum rateLimiterDrivers s c.rate_limiter_driver }
    | none => c
  c

/-- Model of the configuration-resolution sequence of `main` (src/main.rs
lines 931-1061).  `file` is `some f` when the configuration file exists and
parses to `f`, and `none` otherwise (missing file or parse error — both
branches keep the current config).  The order is the source's: (1) seed
`config.debug` from `DEBUG`; (2) apply environment variables to the default
config; (3) a parsed file *replaces* the whole config
(`config = file_config`); (4) re-apply the `REDIS_URL` shortcut; (5)
re-assert `DEBUG` so that a truthy `DEBUG` always wins. -/
def resolve_config (env : EnvVars) (defaults : ServerOptions)
    (file : Option ServerOptions) : ServerOptions :=
  let config := { defaults with debug := env_debug_enabled env }
  let config := apply_env env config
  let config := match file with
    | some file_config => file_config
    | none => config
  let config := match env.redis_url with
    | some url => { config with rate_limiter_redis_url_override := some url }
    | none => config
  if env_debug_enabled env && !config.debug then { config with debug := true }
  else config

/-! ### CORS layer construction (src/main.rs `configure_http_routes`,
lines 513-569) -/

/-- The CORS section of `ServerOptions` (`self.config.cors`). -/
structure CorsOptions where
  origin : List String
  methods : List String
  allowed_headers : List String
  credentials : Bool
deriving DecidableEq

/-- The origin policy a `tower_http::cors::CorsLayer` ends up with. -/
inductive AllowOrigin where
  | unset : AllowOrigin
  | any : AllowOrigin
  | list (origins : List String) : AllowOrigin
deriving DecidableEq

/-- The observable outcome of the CORS builder chain: the origin policy and
the allow-credentials flag (`CorsLayer::new()` starts with no origin and
credentials off). -/
structure CorsLayerModel where
  allow_origin : AllowOrigin
  allow_credentials : Bool
deriving DecidableEq

/-- Model of the CORS-layer construction inside
`SockudoServer::configure_http_routes` (src/main.rs lines 513-569); methods
and headers are passed through separately and do not affect the two
modelled fields. -/
def configure_cors (cors : CorsOptions) : CorsLayerModel :=
  let builder : CorsLayerModel := { allow_origin := .unset, allow_credentials := false }
  let use_allow_origin_any :=
    cors.origin.contains "*" || cors.origin.contains "Any" || cors.origin.contains "any"
  if use_allow_origin_any then
    let builder := { builder with allow_origin := .any }
    if cors.credentials then { builder with allow_credentials := false } else builder
  else if !cors.origin.isEmpty then
    { builder with
        allow_origin := .list cors.origin
        allow_credentials := cors.credentials }
  else
    if cors.credentials then { builder with allow_credentials := false } else builder

/-! ### Server stop sequence (src/main.rs `SockudoServer::stop`,
lines 835-876) -/

/-- The externally observable steps of `SockudoServer::stop`, in execution
order. -/
inductive StopEvent where
  | set_running_false : StopEvent
  | cleanup_connection (app_id : String) (socket_id : String) : StopEvent
  | disconnect_cache : StopEvent
  | disconnect_queue : StopEvent
  | wait_grace (seconds : Nat) : StopEvent
  | server_stopped : StopEvent
deriving DecidableEq

/-- Model of `SockudoServer::stop` as the ordered trace of its effects.
`namespaces` is the result of `connection_manager.get_namespaces()`, each
namespace paired with the socket ids its `get_sockets()` returns (on error
the cleanup loop is skipped with a warning); `has_queue` says whether
`state.queue_manager` is `Some`; `grace` is `config.shutdown_grace_period`. -/
def stop_trace (namespaces : Except String (List (String × List String)))
    (has_queue : Bool) (grace : Nat) : List StopEvent :=
  [StopEvent.set_running_false] ++
  (match namespaces with
   | .ok ns =>
       (ns.map (fun p => p.2.map (fun sid => StopEvent.cleanup_connection p.1 sid))).flatten
   | .error _ => []) ++
  [StopEvent.disconnect_cache] ++
  (if has_queue then [StopEvent.disconnect_queue] else []) ++
  [StopEvent.wait_grace grace, StopEvent.server_stopped]

/-! ### Rate limiter factory (src/rate_limiter/mod.rs, lines 62-115) -/

/-- The `rate_limiter` section of the configuration
(`crate::options::RateLimiterConfig`), as far as `create_rate_limiter`
reads it: the driver name, the `redis.redis_options` map, and the default
limit and window. -/
structure RateLimiterConfig where
  driver : String
  redis_options : List (String × Json)
  default_limit_per_second : Nat
  default_window_seconds : Nat

/-- The rate limiter `create_rate_limiter` returns: either a
`RedisRateLimiter` (url, key prefix, limit, window) or a
`MemoryRateLimiter` (limit, window). -/
inductive RateLimiterKind where
  | redis (url : String) (prefix_str : String) (limit : Nat) (window : Nat) : RateLimiterKind
  | memory (limit : Nat) (window : Nat) : RateLimiterKind
deriving DecidableEq

/-- Model of `create_rate_limiter`.  The fallible construction of the Redis
client and limiter (`redis::Client::open` and `RedisRateLimiter::new`) is
abstracted by `redis_new`, taking the url, key prefix, limit and window the
source passes; the `"memory" | _` arm never fails. -/
def create_rate_limiter
    (redis_new : String → String → Nat → Nat → Except String RateLimiterKind)
    (config : RateLimiterConfig) : Except String RateLimiterKind :=
  if config.driver = "redis" then
    let url := match getField config.redis_options "url" with
      | some (Json.str u) => u
      | some _ => "redis://127.0.0.1:6379/"
      | none => "redis://127.0.0.1:6379/"
    let prefix_str := match getField config.redis_options "prefix" with
      | some (Json.str p) => p
      | some _ => "rate_limit"
      | none => "rate_limit"
    redis_new url prefix_str config.default_limit_per_second config.default_window_seconds
  else
    Except.ok (RateLimiterKind.memory config.default_limit_per_second
      config.default_window_seconds)

/-! ### Example fixtures used by witnesses and counterexamples -/

/-- Example default configuration (values are immaterial to the claims). -/
def exDefaults : ServerOptions where
  host := "0.0.0.0"
  port := 6001
  debug := false
  adapter_driver := "local"
  cache_driver := "memory"
  queue_driver := "memory"
  metrics_driver := "prometheus"
  app_manager_driver := "memory"
  rate_limiter_driver := "memory"
  rate_limiter_redis_url_override := none

/-- Example environment: sets the listener host/port and several driver
selectors. -/
def exEnv : EnvVars where
  debug := none
  host := some "10.1.2.3"
  port := some "7777"
  adapter_driver := some "nats"
  cache_driver := some "redis"
  queue_driver := some "redis"
  metrics_driver := none
  app_manager_driver := some "mysql"
  rate_limiter_driver := some "redis"
  redis_url := none

/-- Example parsed configuration file: sets the same keys to different
values. -/
def exFile : ServerOptions where
  host := "127.0.0.1"
  port := 9000
  debug := false
  adapter_driver := "redis-cluster"
  cache_driver := "none"
  queue_driver := "sqs"
  metrics_driver := "prometheus"
  app_manager_driver := "dynamodb"
  rate_limiter_driver := "memory"
  rate_limiter_redis_url_override := none

/-- Example environment whose only setting is `DEBUG=1`. -/
def exEnvDebug : EnvVars where
  debug := some "1"
  host := none
  port := none
  adapter_driver := none
  cache_driver := none
  queue_driver := none
  metrics_driver := none
  app_manager_driver := none
  rate_limiter_driver := none
  redis_url := none

/-- Example CORS options: a wildcard origin together with
`credentials = true`. -/
def exCors : CorsOptions where
  origin := ["any", "https://example.com"]
  methods := ["GET", "POST"]
  allowed_headers := ["Authorization"]
  credentials := true

/-- Example connection state. -/
def exState : ConnectionState where
  socket_id := ⟨"123.456"⟩
  app := none
  subscribed_channels := ∅
  user_id := none
  last_ping := ""
  presence := none
  user := none

/-- Example connection state whose `user` field is `Some(Value::Null)`. -/
def exStateNull : ConnectionState := { exState with user := some Json.null }

/-- What `exStateNull` becomes after a serialize/deserialize round trip:
the `user` field collapses to `None`. -/
def exStateNullRT : ConnectionState := { exStateNull with user := none }

/-- Example rate-limiter configuration with an unrecognized driver name. -/
def exRateCfg : RateLimiterConfig where
  driver := "weird"
  redis_options := []
  default_limit_per_second := 60
  default_window_seconds := 60

/-- Example Redis limiter constructor (never reached by the claims that use
it). -/
def exRedisNew : String → String → Nat → Nat → Except String RateLimiterKind :=
  fun url prefix_str limit window => Except.ok (RateLimiterKind.redis url prefix_str limit window)

/-! ## Helper lemmas -/

/-- `Nat.toDigitsCore` with positive fuel pushes at least one character onto
the accumulator. -/
lemma toDigitsCore_length_ge (b : Nat) :
    ∀ (f n : Nat) (l : List Char), l.length + 1 ≤ (Nat.toDigitsCore b (f + 1) n l).length := by
  intro f
  induction f with
  | zero =>
    intro n l
    simp only [Nat.toDigitsCore]
    split <;> simp
  | succ f ih =>
    intro n l
    simp only [Nat.toDigitsCore]
    split
    · simp
    · exact le_trans (by simp) (ih (n / b) (Nat.digitChar (n % b) :: l))

/-- The decimal numeral of a natural number is nonempty. -/
lemma repr_length_ge_one (n : Nat) : 1 ≤ (Nat.repr n).length := by
  simp only [Nat.repr, Nat.toDigits, String.length, List.asString]
  exact toDigitsCore_length_ge 10 n n []

/-- Every character `Nat.toDigitsCore` can produce (base between 2 and 10)
is a decimal digit, provided the accumulator only holds digits. -/
lemma toDigitsCore_digits (b : Nat) (hb : 2 ≤ b) (hb10 : b ≤ 10) :
    ∀ (f n : Nat) (l : List Char), (∀ c ∈ l, c.isDigit) →
      ∀ c ∈ Nat.toDigitsCore b f n l, c.isDigit := by
  intro f
  induction f with
  | zero => intro n l hl; simpa [Nat.toDigitsCore] using hl
  | succ f ih =>
    intro n l hl c hc
    have hmod : n % b < 10 := lt_of_lt_of_le (Nat.mod_lt n (by omega)) hb10
    have hdig : (Nat.digitChar (n % b)).isDigit := by
      interval_cases h : n % b <;> decide
    simp only [Nat.toDigitsCore] at hc
    split at hc
    · rcases List.mem_cons.mp hc with h | h
      · simpa [h] using hdig
      · exact hl c h
    · refine ih (n / b) (Nat.digitChar (n % b) :: l) ?_ c hc
      intro d hd
      rcases List.mem_cons.mp hd with h | h
      · simpa [h] using hdig
      · exact hl d h

/-- Every character of the decimal numeral of a natural number is a digit. -/
lemma repr_digits (n : Nat) : ∀ c ∈ (Nat.repr n).toList, c.isDigit := by
  intro c hc
  simp only [Nat.repr, Nat.toDigits, List.asString] at hc
  exact toDigitsCore_digits 10 (by norm_num) (by norm_num) (n + 1) n [] (by simp) c hc

/-- Deserializing a serialized string round-trips. -/
lemma deStr_serStr (s : String) : deStr (serStr s) = some s := rfl

/-- Deserializing a serialized bool round-trips. -/
lemma deBool_serBool (b : Bool) : deBool (serBool b) = some b := rfl

/-- Deserializing a serialized unsigned integer round-trips. -/
lemma deNat_serNat (n : Nat) : deNat (serNat n) = some n := by
  simp [deNat, serNat]

/-- A serialized string is never `null`. -/
lemma serStr_ne_null (s : String) : serStr s ≠ Json.null := by simp [serStr]

/-- On non-`null` input, `Option` deserialization delegates to the inner
deserializer. -/
lemma deOpt_ne_null {α : Type} (f : Json → Option α) (j : Json) (h : j ≠ Json.null) :
    deOpt f j = (f j).map some := by
  cases j <;> simp_all [deOpt]

/-- `Option` serialization round-trips whenever the inner serializer
round-trips and never produces `null`. -/
lemma deOpt_serOpt {α : Type} (f : α → Json) (g : Json → Option α)
    (hrt : ∀ x, g (f x) = some x) (hnn : ∀ x, f x ≠ Json.null) (o : Option α) :
    deOpt g (serOpt f o) = some o := by
  cases o with
  | none => rfl
  | some x =>
    show deOpt g (f x) = some (some x)
    rw [deOpt_ne_null g (f x) (hnn x), hrt x]
    rfl

/-- Sequence serialization round-trips elementwise. -/
lemma deList_serList {α : Type} (f : α → Json) (g : Json → Option α)
    (hrt : ∀ x, g (f x) = some x) (xs : List α) :
    deList g (serList f xs) = some xs := by
  induction xs with
  | nil => rfl
  | cons x xs ih =>
    simp only [serList, deList, List.map_cons, List.mapM_cons, hrt x] at ih ⊢
    simp_all [Option.bind]

/-- `SocketId` serialization round-trips. -/
lemma deSocketId_serSocketId (sid : SocketId) : deSocketId (serSocketId sid) = some sid := rfl

/-- `Webhook` serialization round-trips. -/
lemma deWebhook_serWebhook (w : Webhook) : deWebhook (serWebhook w) = some w := by
  cases w with
  | mk url ets fil =>
    simp [serWebhook, deWebhook, getField, List.find?, deStr_serStr,
      deList_serList serStr deStr deStr_serStr,
      deOpt_serOpt serStr deStr deStr_serStr serStr_ne_null, Option.bind]

/-- `AppConfig` serialization round-trips. -/
lemma deAppConfig_serAppConfig (a : AppConfig) : deAppConfig (serAppConfig a) = some a := by
  cases a
  simp [serAppConfig, deAppConfig, getField, List.find?, deStr_serStr, deBool_serBool,
    deNat_serNat, deList_serList serWebhook deWebhook deWebhook_serWebhook, Option.bind]

/-- A serialized `AppConfig` is never `null`. -/
lemma serAppConfig_ne_null (a : AppConfig) : serAppConfig a ≠ Json.null := by
  simp [serAppConfig]

/-- `PresenceMemberInfo` serialization round-trips. -/
lemma dePresenceMemberInfo_serPresenceMemberInfo (m : PresenceMemberInfo) :
    dePresenceMemberInfo (serPresenceMemberInfo m) = some m := by
  cases m
  simp [serPresenceMemberInfo, dePresenceMemberInfo, getField, List.find?,
    deStr_serStr, serValue, Option.bind]

/-- The presence map serialization round-trips. -/
lemma dePresenceMap_serPresenceMap (m : List (String × PresenceMemberInfo)) :
    dePresenceMap (serPresenceMap m) = some m := by
  induction m with
  | nil => rfl
  | cons p m ih =>
    simp only [serPresenceMap, dePresenceMap, List.map_cons, List.mapM_cons] at ih ⊢
    simp_all [dePresenceMemberInfo_serPresenceMemberInfo, Option.bind]

/-- A serialized presence map is never `null`. -/
lemma serPresenceMap_ne_null (m : List (String × PresenceMemberInfo)) :
    serPresenceMap m ≠ Json.null := by
  simp [serPresenceMap]

/-- Deserializing a list of serialized strings round-trips. -/
lemma mapM_map_deStr (xs : List String) : (xs.map Json.str).mapM deStr = some xs := by
  have h := deList_serList serStr deStr deStr_serStr xs
  simpa [deList, serList, serStr] using h

/-- The subscribed-channel set serialization round-trips. -/
lemma deChannels_serChannels (s : Finset String) : deChannels (serChannels s) = some s := by
  have h : ((s.sort (· ≤ ·)).map Json.str).mapM deStr = some (s.sort (· ≤ ·)) :=
    mapM_map_deStr _
  simp only [serChannels, deChannels, h]
  simp [Finset.sort_toFinset]

/-- The `user : Option<Value>` field round-trips exactly when it is not
`Some(Value::Null)` (serde collapses `Some(Null)` to `null`, which reads
back as `None`). -/
lemma deOpt_serOpt_value (u : Option Json) (h : u ≠ some Json.null) :
    deOpt deValue (serOpt serValue u) = some u := by
  cases u with
  | none => rfl
  | some v => cases v <;> simp_all [serOpt, serValue, deOpt, deValue]

/-- `ConnectionState` serialization round-trips for every state whose
`user` field is not `Some(Value::Null)`. -/
lemma deConnectionState_serConnectionState (s : ConnectionState)
    (h : s.user ≠ some Json.null) :
    deConnectionState (serConnectionState s) = some s := by
  cases s with
  | mk sid app chans uid ping pres user =>
    simp [serConnectionState, deConnectionState, getField, List.find?,
      deSocketId_serSocketId,
      deOpt_serOpt serAppConfig deAppConfig deAppConfig_serAppConfig serAppConfig_ne_null,
      deChannels_serChannels,
      deOpt_serOpt serStr deStr deStr_serStr serStr_ne_null,
      deStr_serStr,
      deOpt_serOpt serPresenceMap dePresenceMap dePresenceMap_serPresenceMap
        serPresenceMap_ne_null,
      deOpt_serOpt_value user h, Option.bind]

/-! ## Claims -/

/-- C1: the claim as frozen is false on the code.  The rng call is
`rng.gen_range(min..=max)` with `max = 10000000000 = 10^10`: the bound is
inclusive, and `10^10` prints as the ELEVEN-digit numeral `"10000000000"`.
So the draw `a = 10000000000` (valid) and `b = 7` produce the socket id
`"10000000000.7"`, whose first decimal component has 11 digits, not 1-10. -/
theorem c1_counterexample :
    socketIdDrawValid 10000000000 ∧
    generate_socket_id 10000000000 7 = "10000000000.7" ∧
    Nat.repr 10000000000 = "10000000000" ∧
    ¬ ((Nat.repr 10000000000).length ≤ 10) := by
  refine ⟨by decide, by decide, by decide, by decide⟩

/-- C1 (amended): every string produced by `generate_socket_id` from valid
rng draws is two decimal numerals, each of 1 to 11 digits (all characters
digits), joined by a single `'.'`. -/
theorem c1_socket_id_format (a b : Nat)
    (ha : socketIdDrawValid a) (hb : socketIdDrawValid b) :
    generate_socket_id a b = Nat.repr a ++ "." ++ Nat.repr b ∧
    (∀ c ∈ (Nat.repr a).toList, c.isDigit) ∧
    (∀ c ∈ (Nat.repr b).toList, c.isDigit) ∧
    1 ≤ (Nat.repr a).length ∧ (Nat.repr a).length ≤ 11 ∧
    1 ≤ (Nat.repr b).length ∧ (Nat.repr b).length ≤ 11 := by
  refine ⟨rfl, repr_digits a, repr_digits b, repr_length_ge_one a, ?_,
    repr_length_ge_one b, ?_⟩
  · exact Nat.repr_length a 11 (by norm_num) (by unfold socketIdDrawValid socketIdMax at ha; omega)
  · exact Nat.repr_length b 11 (by norm_num) (by unfold socketIdDrawValid socketIdMax at hb; omega)

/-- C1 witness: the format theorem applied at the concrete draws 123 and 7. -/
theorem c1_socket_id_format_witness :
    socketIdDrawValid 123 ∧ socketIdDrawValid 7 ∧
    (generate_socket_id 123 7 = Nat.repr 123 ++ "." ++ Nat.repr 7 ∧
     (∀ c ∈ (Nat.repr 123).toList, c.isDigit) ∧
     (∀ c ∈ (Nat.repr 7).toList, c.isDigit) ∧
     1 ≤ (Nat.repr 123).length ∧ (Nat.repr 123).length ≤ 11 ∧
     1 ≤ (Nat.repr 7).length ∧ (Nat.repr 7).length ≤ 11) :=
  ⟨by decide, by decide, c1_socket_id_format 123 7 (by decide) (by decide)⟩

/-- C6: adding a subscription to a channel not already subscribed and then
removing it restores the connection state exactly (the channel set and all
other fields). -/
theorem c6_subscribe_unsubscribe_roundtrip (s : ConnectionState) (c : String)
    (h : c ∉ s.subscribed_channels) :
    (s.add_subscription c).remove_subscription c = s := by
  simp only [ConnectionState.add_subscription, ConnectionState.remove_subscription]
  simp [Finset.erase_insert h]

/-- C6 witness: the round trip at a concrete state and channel. -/
theorem c6_subscribe_unsubscribe_roundtrip_witness :
    "chat" ∉ exState.subscribed_channels ∧
    (exState.add_subscription "chat").remove_subscription "chat" = exState :=
  ⟨by simp [exState], c6_subscribe_unsubscribe_roundtrip exState "chat" (by simp [exState])⟩

/-- C7: `update_ping` changes only `last_ping` (to the supplied clock
reading); every other field of the connection state is unchanged. -/
theorem c7_update_ping_frame (s : ConnectionState) (now : String) :
    (s.update_ping now).socket_id = s.socket_id ∧
    (s.update_ping now).app = s.app ∧
    (s.update_ping now).subscribed_channels = s.subscribed_channels ∧
    (s.update_ping now).user_id = s.user_id ∧
    (s.update_ping now).presence = s.presence ∧
    (s.update_ping now).user = s.user ∧
    (s.update_ping now).last_ping = now :=
  ⟨rfl, rfl, rfl, rfl, rfl, rfl, rfl⟩

/-- C2: the claim as frozen is false on the code.  `main` applies the
environment variables *before* loading the configuration file and then
replaces the whole config with the parsed file (`config = file_config`,
src/main.rs line 1032); only `REDIS_URL` and `DEBUG` are re-applied
afterwards.  Concretely: with `HOST=10.1.2.3` and several driver selectors
in the environment, and a file setting `host = "127.0.0.1"` and different
drivers, the resolved configuration carries the file's values, not the
environment's. -/
theorem c2_counterexample :
    exEnv.host = some "10.1.2.3" ∧ exFile.host = "127.0.0.1" ∧
    (resolve_config exEnv exDefaults (some exFile)).host = "127.0.0.1" ∧
    ¬ ((resolve_config exEnv exDefaults (some exFile)).host = "10.1.2.3") ∧
    exEnv.adapter_driver = some "nats" ∧
    (resolve_config exEnv exDefaults (some exFile)).adapter_driver = "redis-cluster" ∧
    exEnv.port = some "7777" ∧
    (resolve_config exEnv exDefaults (some exFile)).port = 9000 := by
  refine ⟨rfl, rfl, by decide, by decide, rfl, by decide, rfl, by decide⟩

/-- C2 (amended): when the configuration file is present and parses, the
final resolved configuration uses the FILE's value for the listener host,
the listener port and every driver selector, even when the corresponding
environment variable is also set — the environment only seeds the defaults
that the file then replaces (only `REDIS_URL` and `DEBUG` are re-applied
after the file). -/
theorem c2_file_overrides_env (env : EnvVars) (defaults : ServerOptions)
    (f : ServerOptions) :
    (resolve_config env defaults (some f)).host = f.host ∧
    (resolve_config env defaults (some f)).port = f.port ∧
    (resolve_config env defaults (some f)).adapter_driver = f.adapter_driver ∧
    (resolve_config env defaults (some f)).cache_driver = f.cache_driver ∧
    (resolve_config env defaults (some f)).queue_driver = f.queue_driver ∧
    (resolve_config env defaults (some f)).metrics_driver = f.metrics_driver ∧
    (resolve_config env defaults (some f)).app_manager_driver = f.app_manager_driver ∧
    (resolve_config env defaults (some f)).rate_limiter_driver = f.rate_limiter_driver := by
  unfold resolve_config
  cases henv : env.redis_url <;> simp only [henv] <;> split <;> simp

/-- C3: a truthy `DEBUG` environment variable (`"1"`, or anything that
lowercases to `"true"`) forces the final configuration's debug flag on,
regardless of the file's (or the defaults') debug value. -/
theorem c3_debug_env_always_wins (env : EnvVars) (defaults : ServerOptions)
    (file : Option ServerOptions) (v : String)
    (hv : env.debug = some v) (h1 : v = "1" ∨ v.toLower = "true") :
    (resolve_config env defaults file).debug = true := by
  have hd : env_debug_enabled env = true := by
    unfold env_debug_enabled
    rw [hv]
    rcases h1 with h | h <;> simp [h]
  have key : ∀ c : ServerOptions,
      (if (true && !c.debug) = true then { c with debug := true } else c).debug = true := by
    intro c
    by_cases hc : c.debug <;> simp [hc]
  unfold resolve_config
  rw [hd]
  exact key _

/-- C3 witness: `DEBUG=1` in the environment with a file whose debug flag is
false still yields a debug-enabled configuration. -/
theorem c3_debug_env_always_wins_witness :
    exEnvDebug.debug = some "1" ∧ exFile.debug = false ∧
    (resolve_config exEnvDebug exDefaults (some exFile)).debug = true :=
  ⟨rfl, rfl,
    c3_debug_env_always_wins exEnvDebug exDefaults (some exFile) "1" rfl (Or.inl rfl)⟩

/-- C4: the stop sequence first flips the running flag to false, then cleans
up every remaining socket of every namespace, then disconnects the backend
services (the cache manager, and the queue manager when one exists), and
only then waits the shutdown grace period before the server counts as
stopped. -/
theorem c4_stop_sequence (ns : List (String × List String)) (has_queue : Bool)
    (grace : Nat) :
    ∃ cleanups disconnects,
      stop_trace (Except.ok ns) has_queue grace =
        [StopEvent.set_running_false] ++ cleanups ++ disconnects ++
          [StopEvent.wait_grace grace, StopEvent.server_stopped] ∧
      (∀ e ∈ cleanups, ∃ a sid, e = StopEvent.cleanup_connection a sid) ∧
      (∀ p ∈ ns, ∀ sid ∈ p.2, StopEvent.cleanup_connection p.1 sid ∈ cleanups) ∧
      disconnects = StopEvent.disconnect_cache ::
        (if has_queue then [StopEvent.disconnect_queue] else []) := by
  refine ⟨(ns.map (fun p => p.2.map (fun sid => StopEvent.cleanup_connection p.1 sid))).flatten,
    StopEvent.disconnect_cache :: (if has_queue then [StopEvent.disconnect_queue] else []),
    ?_, ?_, ?_, rfl⟩
  · simp [stop_trace]
  · intro e he
    simp only [List.mem_flatten, List.mem_map] at he
    obtain ⟨l, ⟨p, hp, rfl⟩, hel⟩ := he
    obtain ⟨sid, hsid, rfl⟩ := List.mem_map.mp hel
    exact ⟨p.1, sid, rfl⟩
  · intro p hp sid hsid
    simp only [List.mem_flatten, List.mem_map]
    exact ⟨p.2.map (fun sid => StopEvent.cleanup_connection p.1 sid),
      ⟨p, hp, rfl⟩, List.mem_map.mpr ⟨sid, hsid, rfl⟩⟩

/-- C5: whenever the CORS origin list contains a wildcard entry (`"*"`,
`"Any"` or `"any"`), the constructed CORS layer allows any origin and its
allow-credentials flag is false — even when `cors.credentials` is
configured as true. -/
theorem c5_cors_wildcard (cors : CorsOptions)
    (h : cors.origin.contains "*" = true ∨ cors.origin.contains "Any" = true ∨
      cors.origin.contains "any" = true) :
    configure_cors cors =
      { allow_origin := AllowOrigin.any, allow_credentials := false } := by
  have huse : (cors.origin.contains "*" || cors.origin.contains "Any" ||
      cors.origin.contains "any") = true := by
    rcases h with h | h | h <;> simp_all
  unfold configure_cors
  rw [huse]
  split <;> rfl

/-- C5 witness: the wildcard theorem at a concrete configuration that lists
`"any"` among other origins and asks for credentials. -/
theorem c5_cors_wildcard_witness :
    exCors.origin.contains "any" = true ∧ exCors.credentials = true ∧
    configure_cors exCors =
      { allow_origin := AllowOrigin.any, allow_credentials := false } :=
  ⟨by decide, rfl, c5_cors_wildcard exCors (Or.inr (Or.inr (by decide)))⟩

/-- C8: the claim as frozen is false on the code.  `ConnectionState.user`
has type `Option<serde_json::Value>`; serde serializes `Some(Value::Null)`
as JSON `null`, and deserializing `null` into an `Option` yields `None`
before the inner type is ever consulted.  So a state whose `user` field is
`Some(Value::Null)` does not round-trip: it comes back with `user = None`. -/
theorem c8_counterexample :
    exStateNull.user = some Json.null ∧
    deConnectionState (serConnectionState exStateNull) = some exStateNullRT ∧
    exStateNullRT ≠ exStateNull ∧
    deConnectionState (serConnectionState exStateNull) ≠ some exStateNull := by
  have heval : deConnectionState (serConnectionState exStateNull) = some exStateNullRT := by
    simp [exStateNull, exStateNullRT, exState, serConnectionState, deConnectionState,
      getField, List.find?, serSocketId, deSocketId, deStr, serStr, serOpt, deOpt,
      serChannels, deChannels, Finset.sort_empty, serValue, deValue, Option.bind,
      List.mapM, List.mapM.loop]
  have hne : exStateNullRT ≠ exStateNull := by
    simp [exStateNullRT, exStateNull, exState]
  exact ⟨rfl, heval, hne, by rw [heval]; simp [Option.some.injEq, hne]⟩

/-- C8 (amended): serializing and then deserializing is the identity for
every `SocketId`, and for every `ConnectionState` whose `user` field is not
`Some(Value::Null)` (serde collapses `Some(Null)` to `null`, which reads
back as `None`, so those states are the only exceptions). -/
theorem c8_serde_roundtrip :
    (∀ sid : SocketId, deSocketId (serSocketId sid) = some sid) ∧
    (∀ s : ConnectionState, s.user ≠ some Json.null →
      deConnectionState (serConnectionState s) = some s) :=
  ⟨fun sid => deSocketId_serSocketId sid,
   fun s h => deConnectionState_serConnectionState s h⟩

/-- C8 witness: the round trip at a concrete connection state (whose `user`
field is `None`). -/
theorem c8_serde_roundtrip_witness :
    exState.user ≠ some Json.null ∧
    deConnectionState (serConnectionState exState) = some exState :=
  ⟨by simp [exState], c8_serde_roundtrip.2 exState (by simp [exState])⟩

/-- C9: for any driver string other than `"redis"` — including unrecognized
names — `create_rate_limiter` succeeds with a memory-backed limiter built
from `default_limit_per_second` and `default_window_seconds`; it never
returns an error for an unknown driver name. -/
theorem c9_unknown_driver_memory
    (redis_new : String → String → Nat → Nat → Except String RateLimiterKind)
    (config : RateLimiterConfig) (h : config.driver ≠ "redis") :
    create_rate_limiter redis_new config =
      Except.ok (RateLimiterKind.memory config.default_limit_per_second
        config.default_window_seconds) := by
  unfold create_rate_limiter
  rw [if_neg h]

/-- C9 witness: the factory at the unrecognized driver name `"weird"`. -/
theorem c9_unknown_driver_memory_witness :
    exRateCfg.driver ≠ "redis" ∧
    create_rate_limiter exRedisNew exRateCfg =
      Except.ok (RateLimiterKind.memory exRateCfg.default_limit_per_second
        exRateCfg.default_window_seconds) :=
  ⟨by decide, c9_unknown_driver_memory exRedisNew exRateCfg (by decide)⟩

/-- C10: `get_app_key` is total — it returns the bound app's key when an app
is set and the empty string otherwise. -/
theorem c10_get_app_key_total (s : ConnectionState) :
    s.get_app_key = (s.app.map AppConfig.key).getD "" := by
  cases h : s.app <;> simp [ConnectionState.get_app_key, h]

end Sockudo
